import Mathlib

/-!
Verification of the `lst-activ` scripts.

Shallow embedding of the repository's own logic:
* `price_alert/common.py` — `SubscriptionHandlerAlert`: condition evaluation
  (`>`, `<`, `cross above`, `cross below`), the `previous_trade` /
  `alert_sent` state, and the `send_alert` HTTP-POST gate;
* `equity_snapshot/get_current_prices.py` and
  `option_snapshot/get_current_prices_options.py` — the `session.process`
  polling loops, the try/finally handle cleanup, the pandas reconciliation of
  the cached option CSV against the freshly queried option symbols, and the
  strike/expiry filter;
* the `on_snapshot` callbacks that copy message fields into a fixed
  dictionary.

Vendor-SDK behaviour (network delivery, field-id resolution, the exact
moments at which callbacks fire) is not implemented in the repository and is
abstracted: a subscription update is a list of already-resolved
`(field name, value)` pairs, the outcome of an HTTP POST is a boolean
parameter, and the effect of each `session.process` call on the handlers'
`complete` flags is a parameter function.  Python floats are modelled as
rationals, Python exceptions (`KeyError`, `TypeError`) as an `Except`.
-/

namespace LstActiv

/-! ### price_alert/common.py — SubscriptionHandlerAlert -/

/-- A Python runtime error that the alert evaluator can raise:
`KeyError` from a missing dict key, `TypeError` from comparing `None`
with a number. -/
inductive PyErr where
  | keyError
  | typeError
deriving DecidableEq, Repr

/-- The alert configuration dictionary, as read by
`SubscriptionHandlerAlert`.  Every branch of `on_subscription_update` and
`send_alert` itself read `alert['value']`, so `value` is modelled as always
present; the key `'price'` is read only on line 169 (the `"cross below"`
branch) and nothing else in the repository defines it, so it is modelled as
optional (`none` = the key is absent and the lookup raises `KeyError`). -/
structure Alert where
  condition : String
  value : ℚ
  price : Option ℚ
deriving DecidableEq, Repr

/-- The mutable state of a `SubscriptionHandlerAlert`:
`self.previous_trade` (initially `None`) and `self.alert_sent`
(initially `False`). -/
structure AlertState where
  previous_trade : Option ℚ
  alert_sent : Bool
deriving DecidableEq, Repr

/-- The loop over `msg.fields.items()` at the top of
`on_subscription_update`: `trade` starts as `None` and is overwritten by
every field whose resolved name is `"Trade"` (the last one wins). -/
def extractTrade (fields : List (String × ℚ)) : Option ℚ :=
  fields.foldl (fun acc f => if f.1 = "Trade" then some f.2 else acc) none

/-- Python `trade > v` where `trade` may be `None`:
comparing `None` with a number raises `TypeError`. -/
def pyGt : Option ℚ → ℚ → Except PyErr Bool
  | none, _ => .error .typeError
  | some t, v => .ok (decide (t > v))

/-- Python `trade < v` where `trade` may be `None`. -/
def pyLt : Option ℚ → ℚ → Except PyErr Bool
  | none, _ => .error .typeError
  | some t, v => .ok (decide (t < v))

/-- The condition dispatch of `on_subscription_update`
(common.py lines 154-173), computing `alert_triggered`.

* `">"`: triggered iff `trade > alert['value']`;
* `"<"`: triggered iff `trade < alert['value']`;
* `"cross above"`: only when `previous_trade is not None`;
  `not previous_trade > alert['value'] and trade > alert['value']`, with
  Python's short-circuit (`trade` is only compared when the first conjunct
  holds);
* `"cross below"`: only when `previous_trade is not None`; line 169 reads
  `alert['price']` (not `alert['value']`), raising `KeyError` when the key
  is absent, before any comparison;
* any other string: logged as invalid, not triggered. -/
def evalTriggered (alert : Alert) (prev trade : Option ℚ) : Except PyErr Bool :=
  if alert.condition = ">" then
    pyGt trade alert.value
  else if alert.condition = "<" then
    pyLt trade alert.value
  else if alert.condition = "cross above" then
    match prev with
    | none => .ok false
    | some p =>
      if ¬ p > alert.value then pyGt trade alert.value else .ok false
  else if alert.condition = "cross below" then
    match prev with
    | none => .ok false
    | some p =>
      match alert.price with
      | none => .error .keyError
      | some pr =>
        if ¬ p < pr then pyLt trade pr else .ok false
  else
    .ok false

/-- One call of `SubscriptionHandlerAlert.on_subscription_update`
(common.py lines 140-179).  `postOk` is the outcome of the HTTP POST that
`send_alert` would issue (`true` = status code 200).  Returns the new
handler state and whether `send_alert` was called.  On a Python exception
the assignment `self.previous_trade = trade` (line 175) is not reached and
the old state survives, which the `Except.error` result models. -/
def on_subscription_update (alert : Alert) (s : AlertState)
    (fields : List (String × ℚ)) (postOk : Bool) :
    Except PyErr (AlertState × Bool) :=
  let trade := extractTrade fields
  match evalTriggered alert s.previous_trade trade with
  | .error e => .error e
  | .ok triggered =>
    if !s.alert_sent && triggered then
      .ok (⟨trade, postOk⟩, true)
    else
      .ok (⟨trade, s.alert_sent⟩, false)

/-- A whole sequence of subscription updates delivered to one handler, each
with its own fields and POST outcome; returns the final state (or the first
uncaught Python error) together with the number of `send_alert` calls
made. -/
def runUpdates (alert : Alert) :
    AlertState → List (List (String × ℚ) × Bool) →
      Except PyErr AlertState × Nat
  | s, [] => (.ok s, 0)
  | s, u :: rest =>
    match on_subscription_update alert s u.1 u.2 with
    | .error e => (.error e, 0)
    | .ok (s', sent) =>
      let r := runUpdates alert s' rest
      (r.1, (if sent then 1 else 0) + r.2)

/-! ### get_current_prices.py / get_current_prices_options.py —
the snapshot polling loop -/

/-- The inner `for handler in handlerBySymbol.values()` loop of the
`__main__` polling loop (get_current_prices.py lines 273-277, identically
get_current_prices_options.py lines 379-383): for each handler it sets
`snapshotComplete = True`, then on the first handler whose `complete` flag
is false sets it back to `False` and breaks.  `sc` is the value
`snapshotComplete` holds when the for-loop body never runs (the empty
handler dict leaves it untouched). -/
def scanComplete : List Bool → Bool → Bool
  | [], sc => sc
  | h :: t, _ => if !h then false else scanComplete t true

/-- The `while not snapshotComplete` loop (get_current_prices.py lines
269-277; the loop at lines 375-383 of get_current_prices_options.py is
identical).  The vendor call `session.process` drives the handler
callbacks, so the handlers' `complete` flags after the k-th `process` call
are abstracted as `flags k`.  `fuel`-bounded; returns the total number of
`session.process` calls made when the loop exits, `none` if the fuel runs
out first.  `k` counts the `process` calls so far and `sc` is the current
`snapshotComplete`, initially `false`. -/
def pollLoop (flags : ℕ → List Bool) : ℕ → ℕ → Bool → Option ℕ
  | 0, _, _ => none
  | fuel + 1, k, sc =>
    if sc then some k
    else pollLoop flags fuel (k + 1) (scanComplete (flags (k + 1)) sc)

/-- A concrete run of the handler flags: two handlers, the first completes
after the first `process` call, the second after the second. -/
def flagsTwo : ℕ → List Bool := fun k =>
  if k = 0 then [false, false]
  else if k = 1 then [true, false]
  else [true, true]

/-! ### get_current_prices_options.py — option CSV reconciliation -/

/-- A row of the cached `option_data.csv` as the script writes and re-reads
it (lines 465-481): columns `Underlying`, `OptionSymbol`, `OptionType`,
`StrikePrice`, `ExpirationDate`.  Expiration dates live on an abstract
integer timeline. -/
structure OptionRow where
  underlying : String
  optionSymbol : String
  optionType : String
  strikePrice : ℚ
  expirationDate : ℤ
deriving DecidableEq, Repr

/-- A cached row together with the `Check` column that line 351
(`option_data_pd['Check'] = 1`) appends to the freshly read CSV. -/
structure CheckedRow where
  row : OptionRow
  check : ℕ
deriving DecidableEq, Repr

/-- Line 351, `option_data_pd['Check'] = 1`: every cached row gets
`Check = 1`. -/
def addCheck (csv : List OptionRow) : List CheckedRow :=
  csv.map (fun r => ⟨r, 1⟩)

/-- The left merge of lines 436-439:
`option_symbols_pd.merge(option_data_pd[['OptionSymbol','Check']],
how='left', on='OptionSymbol')`.  Each freshly queried symbol is paired
with the `Check` value of every cached row carrying the same
`OptionSymbol`, or with a null `Check` when no cached row matches. -/
def leftMergeCheck (fresh : List String) (cached : List CheckedRow) :
    List (String × Option ℕ) :=
  fresh.flatMap (fun s =>
    let ms := cached.filter (fun c => c.row.optionSymbol = s)
    if ms.isEmpty then [(s, none)]
    else ms.map (fun c => (s, some c.check)))

/-- Line 440, `.query('Check.isna()')`: the rows of the left merge whose
`Check` is null — the "new" option symbols, for which the script then
requests fresh snapshot details (lines 442-461). -/
def optionSymbolsNew (fresh : List String) (cached : List CheckedRow) :
    List (String × Option ℕ) :=
  (leftMergeCheck fresh cached).filter (fun p => p.2.isNone)

/-- Lines 421-422: `option_data_pd[option_data_pd['Underlying'] ==
symbol[0]]`, the cached rows for the current underlying. -/
def filterUnderlying (cached : List CheckedRow) (sym : String) :
    List CheckedRow :=
  cached.filter (fun c => c.row.underlying = sym)

/-- Lines 423-432: the inner merge of the fresh symbol list with the
per-underlying cached rows on `OptionSymbol`, with `Check` dropped and the
result projected to the five CSV columns — the cached option rows retained
for the underlying. -/
def innerMergeRetained (fresh : List String) (cached : List CheckedRow)
    (sym : String) : List OptionRow :=
  fresh.flatMap (fun s =>
    ((filterUnderlying cached sym).filter
      (fun c => c.row.optionSymbol = s)).map (fun c => c.row))

/-- Lines 491-500: the per-underlying option filter.  `now` and
`nowPlus12` are the values of the two `datetime.now()` calls — the second
one already offset by `pd.DateOffset(months=12)` — at the moment the
filter masks are built. -/
def filterOptions (rows : List OptionRow) (sym : String) (currentPrice : ℚ)
    (now nowPlus12 : ℤ) : List OptionRow :=
  (rows.filter (fun r => r.underlying = sym)).filter
    (fun r =>
      decide (r.strikePrice ≥ currentPrice * 0.95) &&
      decide (r.strikePrice ≤ currentPrice * 1.05) &&
      decide (r.expirationDate > now) &&
      decide (r.expirationDate ≤ nowPlus12))

/-! ### try/finally handle cleanup -/

/-- Python `try: body finally: fin`, over a trace of closed handle names.
The body returns normally (`ok`) or raises (`error`); the `finally` block
runs in either case before the outcome propagates.  The `finally` blocks of
these scripts only close handles (and read handler fields), so `fin` is a
pure trace transformer. -/
def tryFinallyTrace (body : List String → Except Unit Unit × List String)
    (fin : List String → List String) :
    List String → Except Unit Unit × List String :=
  fun tr =>
    let r := body tr
    (r.1, fin r.2)

/-- The cleanup `for handle in handleBySymbol.values(): handle.close()`
(get_current_prices.py lines 284-285, get_current_prices_options.py lines
389-390): every handle is appended to the closed-handle trace. -/
def closeAll (handles : List String) (tr : List String) : List String :=
  tr ++ handles

/-- The body of a polling `try` block: it only calls `session.process`
(vendor code, which may raise — the parameter `outcome`) and reads handler
flags; it opens and closes nothing. -/
def pollBody (outcome : Except Unit Unit) (tr : List String) :
    Except Unit Unit × List String :=
  (outcome, tr)

/-- get_current_prices.py lines 270-285 (identically
get_current_prices_options.py lines 376-390): poll, then close every
snapshot handle in the `finally` block, starting from an empty
closed-handle trace. -/
def snapshotMainTrace (outcome : Except Unit Unit) (handles : List String) :
    Except Unit Unit × List String :=
  tryFinallyTrace (pollBody outcome) (closeAll handles) []

/-- get_current_prices_options.py lines 407-412, 452-461 and 512-519: poll
for a single handler, then close the one query/snapshot handle in the
`finally` block. -/
def singleHandleTrace (outcome : Except Unit Unit) (h : String) :
    Except Unit Unit × List String :=
  tryFinallyTrace (pollBody outcome) (closeAll [h]) []

/-! ### SnapshotHandlerTradeInfo / SnapshotHandlerOptionInfo —
on_snapshot field copying -/

/-- Python `self.data[field_name] = value` on a dict: the value stored
under an existing key is replaced; no key is added (the callers only reach
this assignment under `if field_name in self.data.keys()`). -/
def dictAssign {V : Type} (d : List (String × V)) (k : String) (v : V) :
    List (String × V) :=
  d.map (fun p => if p.1 = k then (k, v) else p)

/-- Python `self.data.keys()`. -/
def dictKeys {V : Type} (d : List (String × V)) : List String :=
  d.map Prod.fst

/-- The field loop of `SnapshotHandlerTradeInfo.on_snapshot`
(get_current_prices.py lines 205-216, get_current_prices_options.py lines
176-187) and `SnapshotHandlerOptionInfo.on_snapshot` (lines 238-249): for
each field of the message, in order, resolve its name and assign its value
into `self.data` only when the name is already one of the dict's keys.
`d` is the handler's fixed `data` dictionary, `fields` the message's
already-resolved `(field name, native value)` pairs. -/
def on_snapshot {V : Type} (d : List (String × V))
    (fields : List (String × V)) : List (String × V) :=
  fields.foldl
    (fun acc f =>
      if (dictKeys acc).contains f.1 then dictAssign acc f.1 f.2 else acc) d

/-- The fixed `data` dictionary of `SnapshotHandlerTradeInfo.__init__`
(both scripts), every value initially the empty string. -/
def tradeInfoData : List (String × String) :=
  [("LastReportedTrade", ""), ("LastReportedTradeSize", ""),
   ("LastReportedTradeTime", ""), ("LastReportedTradeDate", ""),
   ("Bid", ""), ("BidSize", ""), ("BidTime", ""),
   ("Ask", ""), ("AskSize", ""), ("AskTime", ""),
   ("TradeHigh", ""), ("TradeHighTime", ""),
   ("TradeLow", ""), ("TradeLowTime", ""),
   ("Open", ""), ("OpenTime", ""),
   ("PreviousClose", ""), ("PreviousOpen", ""),
   ("PreviousTradeHigh", ""), ("PreviousTradeLow", ""),
   ("PreviousPercentChange", ""), ("Currency", ""), ("Symbol", "")]

/-- The fixed `data` dictionary of `SnapshotHandlerOptionInfo.__init__`. -/
def optionInfoData : List (String × String) :=
  [("ClosingBid", ""), ("ClosingAsk", ""), ("Close", ""),
   ("Bid", ""), ("BidSize", ""), ("Ask", ""), ("AskSize", ""),
   ("OpenInterest", ""), ("Trade", ""), ("TradeSize", ""),
   ("CumulativeValue", ""), ("CumulativeVolume", ""),
   ("ExpirationDate", ""), ("OptionType", ""), ("StrikePrice", ""),
   ("Symbol", "")]

end LstActiv

namespace LstActiv

/-! ### Theorems about the alert evaluator -/

/-- C1: with condition `">"` the alert is triggered iff the trade is
strictly greater than `alert['value']`, with condition `"<"` iff it is
strictly less; and `send_alert` (the HTTP POST) is called exactly when the
alert is triggered and `alert_sent` is still false.  Stated for any update
that carries a `Trade` field. -/
theorem C1_threshold_conditions (alert : Alert) (s : AlertState)
    (fields : List (String × ℚ)) (postOk : Bool) (t : ℚ)
    (ht : extractTrade fields = some t) :
    (alert.condition = ">" →
      evalTriggered alert s.previous_trade (extractTrade fields) =
        .ok (decide (t > alert.value)) ∧
      on_subscription_update alert s fields postOk =
        .ok (⟨some t,
              if !s.alert_sent && decide (t > alert.value) then postOk
              else s.alert_sent⟩,
             !s.alert_sent && decide (t > alert.value))) ∧
    (alert.condition = "<" →
      evalTriggered alert s.previous_trade (extractTrade fields) =
        .ok (decide (t < alert.value)) ∧
      on_subscription_update alert s fields postOk =
        .ok (⟨some t,
              if !s.alert_sent && decide (t < alert.value) then postOk
              else s.alert_sent⟩,
             !s.alert_sent && decide (t < alert.value))) := by
  constructor
  · intro hc
    have he : evalTriggered alert s.previous_trade (extractTrade fields) =
        .ok (decide (t > alert.value)) := by
      simp [evalTriggered, hc, ht, pyGt]
    refine ⟨he, ?_⟩
    rw [ht] at he
    simp only [on_subscription_update, ht, he]
    cases hs : s.alert_sent <;> cases hd : decide (t > alert.value) <;>
      simp [hs, hd]
  · intro hc
    have hne : alert.condition ≠ ">" := by
      rw [hc]; decide
    have he : evalTriggered alert s.previous_trade (extractTrade fields) =
        .ok (decide (t < alert.value)) := by
      simp [evalTriggered, hc, hne, ht, pyLt]
    refine ⟨he, ?_⟩
    rw [ht] at he
    simp only [on_subscription_update, ht, he]
    cases hs : s.alert_sent <;> cases hd : decide (t < alert.value) <;>
      simp [hs, hd]

/-- C1 witness: a `">"` alert with value 10 on a trade at 12, no alert sent
yet, POST succeeding: the POST is issued. -/
theorem C1_threshold_conditions_witness :
    on_subscription_update ⟨">", 10, none⟩ ⟨none, false⟩
      [("Trade", 12)] true = .ok (⟨some 12, true⟩, true) := by
  have h := (C1_threshold_conditions ⟨">", 10, none⟩ ⟨none, false⟩
    [("Trade", 12)] true 12 rfl).1 rfl
  rw [h.2]
  rfl

/-- C2: the `"cross below"` branch (common.py line 169) compares against
`alert['price']`, not the alert's configured threshold `alert['value']`
that every other branch, the branch's own alert message (line 170) and
`send_alert` use.  At `previous_trade = 15`, trade `5`, configured value
`10` the claim requires the alert to trigger (15 is not below 10, 5 is);
instead the handler raises `KeyError` when the `'price'` key is absent,
and with a `'price'` key set to 20 it does not trigger at all. -/
theorem C2_cross_below_reads_price_key :
    (on_subscription_update ⟨"cross below", 10, none⟩ ⟨some 15, false⟩
        [("Trade", 5)] true = .error .keyError) ∧
    (on_subscription_update ⟨"cross below", 10, some 20⟩ ⟨some 15, false⟩
        [("Trade", 5)] true = .ok (⟨some 5, false⟩, false)) ∧
    (¬ (15 : ℚ) < 10 ∧ (5 : ℚ) < 10) :=
  ⟨rfl, rfl, by norm_num⟩

/-- C3: with condition `"cross above"`, the alert is triggered iff a
previous trade is recorded, that previous trade is not strictly above
`alert['value']`, and the new trade is strictly above `alert['value']`;
and after the update (triggering or not) the stored `previous_trade` is
the update's trade value. -/
theorem C3_cross_above (alert : Alert) (s : AlertState)
    (fields : List (String × ℚ)) (postOk : Bool) (t : ℚ)
    (ht : extractTrade fields = some t)
    (hc : alert.condition = "cross above") :
    (s.previous_trade = none →
      on_subscription_update alert s fields postOk =
        .ok (⟨some t, s.alert_sent⟩, false)) ∧
    (∀ p, s.previous_trade = some p →
      on_subscription_update alert s fields postOk =
        .ok (⟨some t,
              if !s.alert_sent &&
                  (!decide (p > alert.value) && decide (t > alert.value))
              then postOk else s.alert_sent⟩,
             !s.alert_sent &&
               (!decide (p > alert.value) && decide (t > alert.value)))) ∧
    (∀ p, (!decide (p > alert.value) && decide (t > alert.value)) = true ↔
          (¬ p > alert.value ∧ t > alert.value)) := by
  refine ⟨?_, ?_, ?_⟩
  · intro hp
    simp [on_subscription_update, evalTriggered, hc, hp, ht]
  · intro p hp
    by_cases hgt : p > alert.value
    · have hd' : decide (p > alert.value) = true := by simpa using hgt
      simp [on_subscription_update, evalTriggered, hc, hp, hgt, hd', ht]
    · have hd' : decide (p > alert.value) = false := by simpa using hgt
      cases hs : s.alert_sent <;> cases hd : decide (t > alert.value) <;>
        simp [on_subscription_update, evalTriggered, pyGt, hc, hp, hgt,
          hd', ht, hs, hd]
  · intro p
    simp

/-- C3 witness: previous trade 9 (not above 10), new trade 12 (above 10):
the alert triggers, the POST is sent, and `previous_trade` becomes 12. -/
theorem C3_cross_above_witness :
    on_subscription_update ⟨"cross above", 10, none⟩ ⟨some 9, false⟩
      [("Trade", 12)] true = .ok (⟨some 12, true⟩, true) := by
  have h := (C3_cross_above ⟨"cross above", 10, none⟩ ⟨some 9, false⟩
    [("Trade", 12)] true 12 rfl rfl).2.1 9 rfl
  rw [h]
  rfl

/-- Helper: once `alert_sent` is true, `on_subscription_update` only
evaluates the condition (possibly raising) and records the trade; it never
calls `send_alert` and leaves `alert_sent` true. -/
theorem sent_update_eq (alert : Alert) (s : AlertState)
    (fields : List (String × ℚ)) (postOk : Bool)
    (h : s.alert_sent = true) :
    on_subscription_update alert s fields postOk =
      Except.map (fun _ => (⟨extractTrade fields, true⟩, false))
        (evalTriggered alert s.previous_trade (extractTrade fields)) := by
  simp only [on_subscription_update]
  cases evalTriggered alert s.previous_trade (extractTrade fields) <;>
    simp [h, Except.map]

/-- Helper: over any update sequence, a handler whose `alert_sent` flag is
already true makes zero `send_alert` calls, and if it survives without a
Python error its flag is still true. -/
theorem runUpdates_after_sent (alert : Alert) :
    ∀ (us : List (List (String × ℚ) × Bool)) (s : AlertState),
      s.alert_sent = true →
      (runUpdates alert s us).2 = 0 ∧
      ∀ s', (runUpdates alert s us).1 = .ok s' → s'.alert_sent = true := by
  intro us
  induction us with
  | nil =>
    intro s h
    refine ⟨rfl, ?_⟩
    intro s' hs'
    simp only [runUpdates, Except.ok.injEq] at hs'
    rw [← hs']
    exact h
  | cons u rest ih =>
    intro s h
    simp only [runUpdates]
    rw [sent_update_eq alert s u.1 u.2 h]
    cases evalTriggered alert s.previous_trade (extractTrade u.1) with
    | error e => simp [Except.map]
    | ok b =>
      simp only [Except.map, if_neg]
      have hrec := ih ⟨extractTrade u.1, true⟩ rfl
      simpa using hrec

/-- C8: at-most-once delivery.  Once a POST has succeeded (`alert_sent`
true), no later update makes a `send_alert` call and the flag stays true;
and while the flag is false, an update whose condition evaluates to `b`
calls `send_alert` exactly when `b` is true, after which `alert_sent`
equals the POST outcome — so a failed POST (non-200) leaves it false and a
later trigger retries. -/
theorem C8_at_most_once (alert : Alert) (s : AlertState)
    (us : List (List (String × ℚ) × Bool)) (h : s.alert_sent = true) :
    (runUpdates alert s us).2 = 0 ∧
    (∀ s', (runUpdates alert s us).1 = .ok s' → s'.alert_sent = true) ∧
    (∀ s2 : AlertState, s2.alert_sent = false →
      ∀ fields postOk b,
        evalTriggered alert s2.previous_trade (extractTrade fields) =
          .ok b →
        on_subscription_update alert s2 fields postOk =
          .ok (⟨extractTrade fields, b && postOk⟩, b)) := by
  obtain ⟨h1, h2⟩ := runUpdates_after_sent alert us s h
  refine ⟨h1, h2, ?_⟩
  intro s2 hs2 fields postOk b hb
  simp only [on_subscription_update, hb, hs2]
  cases hbb : b <;> simp

/-- C8 witness: an already-sent handler sees a triggering update and makes
zero further `send_alert` calls, keeping `alert_sent` true. -/
theorem C8_at_most_once_witness :
    (runUpdates ⟨">", 10, none⟩ ⟨none, true⟩
      [([("Trade", 12)], true)]).2 = 0 ∧
    (⟨some 12, true⟩ : AlertState).alert_sent = true := by
  have h := C8_at_most_once ⟨">", 10, none⟩ ⟨none, true⟩
    [([("Trade", 12)], true)] rfl
  exact ⟨h.1, h.2.1 ⟨some 12, true⟩ rfl⟩

/-! ### Theorems about the polling loop -/

/-- Helper: once `snapshotComplete` has been set to `True` by a previous
handler, the inner scan computes the conjunction of the remaining flags. -/
theorem scanComplete_from_true (l : List Bool) :
    scanComplete l true = l.all id := by
  induction l with
  | nil => rfl
  | cons b t ih => cases b <;> simp [scanComplete, ih]

/-- Helper: on a non-empty handler list the inner scan leaves
`snapshotComplete` equal to "all handlers complete", whatever its previous
value was. -/
theorem scanComplete_of_ne_nil (l : List Bool) (sc : Bool) (h : l ≠ []) :
    scanComplete l sc = l.all id := by
  cases l with
  | nil => exact absurd rfl h
  | cons b t => cases b <;> simp [scanComplete, scanComplete_from_true]

/-- Helper: when `snapshotComplete` is already true the loop exits at once,
making no further `session.process` call. -/
theorem pollLoop_exits_when_complete (flags : ℕ → List Bool) (fuel k : ℕ)
    (h : 0 < fuel) : pollLoop flags fuel k true = some k := by
  cases fuel with
  | zero => omega
  | succ f => simp [pollLoop]

/-- Helper: from any intermediate point with `snapshotComplete` false, the
loop keeps calling `session.process` until the first call after which all
flags are true, then stops. -/
theorem pollLoop_reaches (flags : ℕ → List Bool) (m : ℕ)
    (hne : ∀ k, flags k ≠ [])
    (hall : (flags m).all id = true)
    (hmin : ∀ j, 1 ≤ j → j < m → (flags j).all id = false) :
    ∀ fuel k, k < m → m - k < fuel → pollLoop flags fuel k false = some m := by
  intro fuel
  induction fuel with
  | zero =>
    intro k _ hf
    omega
  | succ f ih =>
    intro k hk hf
    show pollLoop flags f (k + 1) (scanComplete (flags (k + 1)) false) = some m
    rw [scanComplete_of_ne_nil _ _ (hne (k + 1))]
    by_cases hkm : k + 1 = m
    · rw [hkm, hall]
      exact pollLoop_exits_when_complete flags f m (by omega)
    · rw [hmin (k + 1) (by omega) (by omega)]
      exact ih (k + 1) (by omega) (by omega)

/-- C4: the `__main__` polling loop (both scripts) with a non-empty set of
registered snapshot handlers: as long as some handler's `complete` flag is
false it calls `session.process` again, and it exits, with no further
`process` call, exactly after the first `process` call that leaves every
handler's `complete` flag true.  `m` is that first call; the loop makes
exactly `m` calls and terminates. -/
theorem C4_poll_until_all_complete (flags : ℕ → List Bool) (n m fuel : ℕ)
    (hn : 0 < n) (hlen : ∀ k, (flags k).length = n)
    (hm : 1 ≤ m) (hall : (flags m).all id = true)
    (hmin : ∀ j, 1 ≤ j → j < m → (flags j).all id = false)
    (hfuel : m < fuel) :
    pollLoop flags fuel 0 false = some m := by
  have hne : ∀ k, flags k ≠ [] := by
    intro k hk
    have hl := hlen k
    rw [hk] at hl
    simp only [List.length_nil] at hl
    omega
  exact pollLoop_reaches flags m hne hall hmin fuel 0 (by omega) (by omega)

/-- C4 witness: two handlers completing after the first and second
`process` call respectively: the loop makes exactly two `process` calls. -/
theorem C4_poll_until_all_complete_witness :
    pollLoop flagsTwo 3 0 false = some 2 := by
  refine C4_poll_until_all_complete flagsTwo 2 2 3 (by decide) ?_ (by decide)
    (by decide) ?_ (by decide)
  · intro k
    simp only [flagsTwo]
    split <;> try split
    all_goals decide
  · intro j h1 h2
    have hj : j = 1 := by omega
    subst hj
    decide

/-! ### Theorems about the CSV reconciliation -/

/-- Helper: the per-symbol match list over the checked CSV is empty iff
the symbol appears nowhere in the CSV's `OptionSymbol` column. -/
theorem addCheck_filter_isEmpty (csv : List OptionRow) (s : String) :
    ((addCheck csv).filter
        (fun c => c.row.optionSymbol = s)).isEmpty = true ↔
      s ∉ csv.map (fun r => r.optionSymbol) := by
  simp only [List.isEmpty_iff, List.filter_eq_nil_iff, addCheck,
    List.mem_map, decide_eq_true_eq]
  constructor
  · rintro h ⟨r, hr, hrs⟩
    exact h ⟨r, 1⟩ ⟨r, hr, rfl⟩ hrs
  · rintro h c ⟨r, hr, rfl⟩ hc
    exact h ⟨r, hr, hc⟩

/-- C5: the "new" option symbols — those kept by `.query('Check.isna()')`
after the left merge — are exactly the freshly queried symbols whose
`OptionSymbol` appears nowhere in the cached CSV's `OptionSymbol`
column. -/
theorem C5_new_symbols_set_difference (fresh : List String)
    (csv : List OptionRow) (s : String) :
    s ∈ (optionSymbolsNew fresh (addCheck csv)).map Prod.fst ↔
      s ∈ fresh ∧ s ∉ csv.map (fun r => r.optionSymbol) := by
  constructor
  · rintro hs
    simp only [optionSymbolsNew, leftMergeCheck, List.mem_map,
      List.mem_filter, List.mem_flatMap] at hs
    obtain ⟨p, ⟨⟨a, ha, hp⟩, hnone⟩, hps⟩ := hs
    by_cases hemp :
        ((addCheck csv).filter
          (fun c => c.row.optionSymbol = a)).isEmpty = true
    · rw [if_pos hemp] at hp
      simp only [List.mem_singleton] at hp
      subst hp
      simp only at hps
      subst hps
      exact ⟨ha, (addCheck_filter_isEmpty csv a).mp hemp⟩
    · rw [if_neg hemp] at hp
      simp only [List.mem_map] at hp
      obtain ⟨c, _, rfl⟩ := hp
      simp at hnone
  · rintro ⟨hfresh, hnot⟩
    simp only [optionSymbolsNew, leftMergeCheck, List.mem_map,
      List.mem_filter, List.mem_flatMap]
    refine ⟨(s, none), ⟨⟨s, hfresh, ?_⟩, rfl⟩, rfl⟩
    rw [if_pos ((addCheck_filter_isEmpty csv s).mpr hnot)]
    exact List.mem_singleton.mpr rfl

/-- C6: the cached rows retained for an underlying are exactly the rows of
the cached CSV whose `Underlying` is that symbol and whose `OptionSymbol`
occurs in the fresh query result; rows absent from the fresh query are
dropped. -/
theorem C6_retained_inner_join (fresh : List String) (csv : List OptionRow)
    (sym : String) (r : OptionRow) :
    r ∈ innerMergeRetained fresh (addCheck csv) sym ↔
      (r ∈ csv ∧ r.underlying = sym ∧ r.optionSymbol ∈ fresh) := by
  simp only [innerMergeRetained, filterUnderlying, addCheck,
    List.mem_flatMap, List.mem_map, List.mem_filter, decide_eq_true_eq]
  constructor
  · rintro ⟨s, hs, c, ⟨⟨⟨r0, hr0, rfl⟩, hu⟩, ho⟩, rfl⟩
    exact ⟨hr0, hu, ho ▸ hs⟩
  · rintro ⟨hr, hu, hs⟩
    exact ⟨r.optionSymbol, hs, ⟨r, 1⟩, ⟨⟨⟨r, hr, rfl⟩, hu⟩, rfl⟩, rfl⟩

/-! ### Theorems about handle cleanup and the option filter -/

/-- C7: every snapshot/query handle is closed by its `finally` block.
Whether the polling body returns normally or raises, the closed-handle
trace of the all-handles cleanup (equity and option initial snapshots) is
exactly the opened handles, the single-handle cleanups (query and
per-option snapshot blocks) close their handle, and in both shapes the
body's outcome — normal return or exception — propagates unchanged past
the `finally`. -/
theorem C7_handles_closed (outcome : Except Unit Unit)
    (handles : List String) (h : String) :
    (snapshotMainTrace outcome handles).2 = handles ∧
    (snapshotMainTrace outcome handles).1 = outcome ∧
    (singleHandleTrace outcome h).2 = [h] ∧
    (singleHandleTrace outcome h).1 = outcome :=
  ⟨rfl, rfl, rfl, rfl⟩

/-- C9: the option filter keeps, among the rows of the current underlying,
exactly those whose strike price lies in the closed interval
`[0.95 * price, 1.05 * price]` and whose expiration date is strictly after
`now` and at most `nowPlus12` (the 12-month offset of `now`) — not the 2%
strike band and 2-to-4-month window of the adjacent comment: the second
conjunct shows a strike a full 5% below the current price being kept. -/
theorem C9_option_filter (rows : List OptionRow) (sym : String) (p : ℚ)
    (now nowPlus12 : ℤ) (r : OptionRow) :
    (r ∈ filterOptions rows sym p now nowPlus12 ↔
      r ∈ rows ∧ r.underlying = sym ∧
      p * 0.95 ≤ r.strikePrice ∧ r.strikePrice ≤ p * 1.05 ∧
      now < r.expirationDate ∧ r.expirationDate ≤ nowPlus12) ∧
    (filterOptions [⟨"X", "O", "C", 95, 300⟩] "X" 100 0 365 =
        [⟨"X", "O", "C", 95, 300⟩] ∧
      ¬ ((98 : ℚ) ≤ 95 ∧ (95 : ℚ) ≤ 102)) := by
  constructor
  · simp only [filterOptions, List.mem_filter, Bool.and_eq_true,
      decide_eq_true_eq, ge_iff_le, gt_iff_lt]
    tauto
  · exact ⟨by norm_num [filterOptions, List.filter], by norm_num⟩

/-! ### Theorems about the on_snapshot field copying -/

/-- Helper: one step of the field loop. -/
theorem on_snapshot_cons {V : Type} (d : List (String × V)) (f : String × V)
    (rest : List (String × V)) :
    on_snapshot d (f :: rest) =
      on_snapshot
        (if (dictKeys d).contains f.1 then dictAssign d f.1 f.2 else d)
        rest := rfl

/-- Helper: assigning to an existing key never changes the key list. -/
theorem dictKeys_dictAssign {V : Type} (d : List (String × V)) (k : String)
    (v : V) : dictKeys (dictAssign d k v) = dictKeys d := by
  unfold dictKeys dictAssign
  rw [List.map_map]
  apply List.map_congr_left
  intro p _
  by_cases hp : p.1 = k <;> simp [hp]

/-- Helper: assigning under key `k` leaves the value of any other key
unchanged. -/
theorem lookup_dictAssign_ne {V : Type} (d : List (String × V))
    (k k' : String) (v : V) (h : k' ≠ k) :
    List.lookup k' (dictAssign d k v) = List.lookup k' d := by
  induction d with
  | nil => rfl
  | cons p t ih =>
    obtain ⟨pk, pv⟩ := p
    by_cases hp : pk = k
    · subst hp
      have hbe : (k' == pk) = false := by simp [h]
      simp only [dictAssign, List.map_cons] at ih ⊢
      simp [List.lookup, hbe] at ih ⊢
      exact ih
    · have hne : ((pk, pv).1 = k) = False := by simp [hp]
      simp only [dictAssign, List.map_cons, hne, if_false] at ih ⊢
      cases hke : k' == pk <;> (simp [List.lookup, hke]; try exact ih)

/-- Helper: the key set of the handler's `data` dict is invariant under
`on_snapshot`. -/
theorem dictKeys_on_snapshot {V : Type} (fields : List (String × V)) :
    ∀ d : List (String × V),
      dictKeys (on_snapshot d fields) = dictKeys d := by
  induction fields with
  | nil => intro d; rfl
  | cons f rest ih =>
    intro d
    rw [on_snapshot_cons]
    by_cases hc : ((dictKeys d).contains f.1) = true
    · rw [if_pos hc, ih, dictKeys_dictAssign]
    · rw [if_neg hc, ih]

/-- Helper: a key named by no field of the message keeps its value. -/
theorem lookup_on_snapshot_not_mem {V : Type} (fields : List (String × V))
    (k : String) :
    ∀ d : List (String × V), k ∉ fields.map Prod.fst →
      List.lookup k (on_snapshot d fields) = List.lookup k d := by
  induction fields with
  | nil => intro d _; rfl
  | cons f rest ih =>
    intro d hk
    have hk1 : k ≠ f.1 := by
      intro he
      exact hk (by simp [he])
    have hk2 : k ∉ rest.map Prod.fst := by
      intro he
      exact hk (by simp [he])
    rw [on_snapshot_cons]
    by_cases hc : ((dictKeys d).contains f.1) = true
    · rw [if_pos hc, ih _ hk2, lookup_dictAssign_ne _ _ _ _ hk1]
    · rw [if_neg hc, ih _ hk2]

/-- Helper: a message none of whose field names is a key of the dict
leaves the dict untouched. -/
theorem on_snapshot_no_keys {V : Type} (fields : List (String × V)) :
    ∀ d : List (String × V), (∀ f ∈ fields, f.1 ∉ dictKeys d) →
      on_snapshot d fields = d := by
  induction fields with
  | nil => intro d _; rfl
  | cons f rest ih =>
    intro d hf
    rw [on_snapshot_cons]
    have hmem : f.1 ∉ dictKeys d := hf f (by simp)
    have hc : ((dictKeys d).contains f.1) = false := by
      simpa using hmem
    rw [if_neg (by simpa using hmem)]
    exact ih d (fun g hg => hf g (by simp [hg]))

/-- C10: `on_snapshot` (`SnapshotHandlerTradeInfo` and
`SnapshotHandlerOptionInfo`, both scripts) only assigns to keys already in
the fixed `data` dictionary: the key set is unchanged by every message,
keys named by no field of the message keep their previous values, and a
message carrying only unknown field names leaves the dictionary exactly as
it was. -/
theorem C10_on_snapshot_frame {V : Type} (d fields : List (String × V)) :
    dictKeys (on_snapshot d fields) = dictKeys d ∧
    (∀ k, k ∉ fields.map Prod.fst →
      List.lookup k (on_snapshot d fields) = List.lookup k d) ∧
    ((∀ f ∈ fields, f.1 ∉ dictKeys d) → on_snapshot d fields = d) :=
  ⟨dictKeys_on_snapshot fields d,
   fun k hk => lookup_on_snapshot_not_mem fields k d hk,
   fun h => on_snapshot_no_keys fields d h⟩

/-- C10 witness: a message with an unknown field name leaves the
trade-info dict untouched, and a message updating only `Trade` keeps the
`Bid` entry of the option-info dict. -/
theorem C10_on_snapshot_frame_witness :
    on_snapshot tradeInfoData [("Bogus", "1")] = tradeInfoData ∧
    List.lookup "Bid" (on_snapshot optionInfoData [("Trade", "7")]) =
      List.lookup "Bid" optionInfoData := by
  constructor
  · exact (C10_on_snapshot_frame tradeInfoData [("Bogus", "1")]).2.2
      (by decide)
  · exact (C10_on_snapshot_frame optionInfoData [("Trade", "7")]).2.1 "Bid"
      (by decide)

end LstActiv
